import Mathlib

/-!
Verification development for the scene transition and portal subsystem of
the AIalchemistsLAIR repository (doorways.js, sceneIntegration.js,
vibePortalEntity.js, sceneData.js).

Shallow embedding conventions:
  * JavaScript numbers are modelled as rationals; all values appearing in the
    code and the scene registry are exact decimals, so no rounding is lost.
  * The comparison Math.sqrt(dx*dx + dy*dy) < 3.0 is embedded as
    dx*dx + dy*dy < 9, which is equivalent on nonnegative reals; the
    equivalence with the real square root is proved where a claim needs it.
  * setTimeout is modelled by an absolute deadline stored in the state
    (closeDeadline); the event loop firing a due callback between frames is
    the function fireDueClose, applied before each update runs.
  * Calls to external collaborators (SceneManager.loadScene,
    SceneManager.transitionTo, window.location.href assignment, the DOM
    message box) are modelled as emitted values rather than effects.
-/

namespace AIalchemistsLAIR

/-- Wall plane a wall doorway is attached to (doorways.js stores the strings
"north" and "west" in the wallSide field). -/
inductive WallSide
  | north
  | west
deriving DecidableEq, Repr

/-- State of one Doorway (doorways.js, class Doorway).  Only the fields read
or written by the logic under verification are carried; presentation fields
(color, icon, pulseTime, width, height, zHeight) are omitted.  The JS field
closeTimeout (a timer handle) is modelled by closeDeadline, the absolute time
at which the pending close callback fires. -/
structure Doorway where
  direction : String
  targetScene : Option String
  x : ℚ
  y : ℚ
  isOpen : Bool
  closeDeadline : Option ℚ
  isWallDoorway : Bool
  wallSide : Option WallSide
  gridX : ℚ
  gridY : ℚ
deriving DecidableEq, Repr

/-- Doorway.isPlayerColliding (doorways.js lines 217-231): distance check in
grid coordinates with extra constraints for wall doorways.  The source
computes Math.sqrt(dx*dx+dy*dy) < 3.0; we compare the squares. -/
def Doorway.isPlayerColliding (d : Doorway) (playerX playerY : ℚ) : Bool :=
  let dx := |d.gridX - playerX|
  let dy := |d.gridY - playerY|
  if d.isWallDoorway then
    if d.wallSide = some WallSide.north ∧ playerY > 5 then false
    else if d.wallSide = some WallSide.west ∧ playerX > 5 then false
    else decide (dx * dx + dy * dy < 9)
  else decide (dx * dx + dy * dy < 9)

/-- The setTimeout callback registered in Doorway.update (doorways.js lines
126-132): when the 800 ms deadline has passed, the callback sets
isOpen := false and clears the timer handle.  The event loop runs it between
frames, before the next update call. -/
def fireDueClose (now : ℚ) (d : Doorway) : Doorway :=
  match d.closeDeadline with
  | some t => if t ≤ now then { d with isOpen := false, closeDeadline := none } else d
  | none => d

/-- Doorway.update (doorways.js lines 104-136) restricted to the door
open/close state machine (the pulseTime increment is presentation only).
now is the absolute time of this frame; 800 ms is 4/5 of a second. -/
def Doorway.update (now : ℚ) (isPlayerNear : Bool) (d : Doorway) : Doorway :=
  if ¬ d.isWallDoorway then d
  else if isPlayerNear ∧ ¬ d.isOpen then
    { d with isOpen := true, closeDeadline := none }
  else if ¬ isPlayerNear ∧ d.isOpen then
    match d.closeDeadline with
    | none => { d with closeDeadline := some (now + 4/5) }
    | some _ => d
  else d

/-- One frame for a single doorway: any due close callback fires first (the
event loop empties the timer queue before the frame callback), then
Doorway.update runs with the proximity sample of this frame. -/
def stepFrame (now : ℚ) (isPlayerNear : Bool) (d : Doorway) : Doorway :=
  Doorway.update now isPlayerNear (fireDueClose now d)

/-- Run a doorway through a list of (time, proximity) samples. -/
def runFrames (d : Doorway) : List (ℚ × Bool) → Doorway
  | [] => d
  | (t, near) :: rest => runFrames (stepFrame t near d) rest

/-- Exit entry of the scene registry (sceneData.js): fields direction, to,
position, gridX, gridY, comingSoon.  Fields that may be absent in a
configuration are Options. -/
structure ExitConfig where
  direction : String
  /-- the `to` field of the source (a keyword in Lean, hence renamed) -/
  toScene : Option String
  posX : Option ℚ
  posY : Option ℚ
  gridX : Option ℚ
  gridY : Option ℚ
  comingSoon : Bool
deriving DecidableEq, Repr

/-- Doorway construction for one exit, from DoorwayManager.initDoorways
(doorways.js lines 261-306): grid coordinates fall back to
position / scene size * 16, the doorway is a wall doorway exactly when its
direction is cardinal, north/south exits attach to the north wall plane and
east/west exits to the west plane, and two named doors get hardcoded
positions that override the configuration.  (When both gridX and position.x
are absent the JS expression is NaN; the registry always supplies them, and
the rational model uses 0 in that unreachable branch.) -/
def mkDoorway (sceneName : String) (sceneWidth sceneHeight : ℚ) (e : ExitConfig) : Doorway :=
  let gridX0 : ℚ := match e.gridX with
    | some g => g
    | none => (match e.posX with | some p => p | none => 0) / sceneWidth * 16
  let gridY0 : ℚ := match e.gridY with
    | some g => g
    | none => (match e.posY with | some p => p | none => 0) / sceneHeight * 16
  let isWall : Bool :=
    e.direction = "north" ∨ e.direction = "south" ∨ e.direction = "east" ∨ e.direction = "west"
  let side : Option WallSide :=
    if e.direction = "north" ∨ e.direction = "south" then some WallSide.north
    else if e.direction = "east" ∨ e.direction = "west" then some WallSide.west
    else none
  let d : Doorway :=
    { direction := e.direction
      targetScene := e.toScene
      x := match e.posX with | some p => p | none => 0
      y := match e.posY with | some p => p | none => 0
      isOpen := false
      closeDeadline := none
      isWallDoorway := isWall
      wallSide := side
      gridX := gridX0
      gridY := gridY0 }
  let d :=
    if sceneName = "startRoom" ∧ e.direction = "east" then
      { d with wallSide := some WallSide.west, gridX := 0, gridY := 53/10 }
    else d
  if sceneName = "neonPhylactery" ∧ e.direction = "west" then
    { d with wallSide := some WallSide.west, gridX := 14, gridY := 63/10 }
  else d

/-- One scene of the registry (sceneData.js). -/
structure SceneDef where
  id : String
  width : ℚ
  height : ℚ
  exits : List ExitConfig
deriving DecidableEq, Repr

/-- startRoom north exit (sceneData.js): leads to the external arcade URL. -/
def startRoomNorthExit : ExitConfig :=
  { direction := "north"
    toScene := some "https://aialchemistart.github.io/Circuit-Sanctum-Arcade/"
    posX := some 200, posY := some 0
    gridX := some 8, gridY := some 0
    comingSoon := false }

/-- startRoom east exit (sceneData.js): the comingSoon door. -/
def startRoomEastExit : ExitConfig :=
  { direction := "east"
    toScene := some "comingSoon"
    posX := some 400, posY := some 150
    gridX := some 0, gridY := some (53/10)
    comingSoon := true }

/-- circuitSanctum south exit (sceneData.js). -/
def circuitSouthExit : ExitConfig :=
  { direction := "south"
    toScene := some "startRoom"
    posX := some 400, posY := some 600
    gridX := some 8, gridY := some 14
    comingSoon := false }

/-- neonPhylactery west exit (sceneData.js). -/
def neonWestExit : ExitConfig :=
  { direction := "west"
    toScene := some "startRoom"
    posX := some 0, posY := some 300
    gridX := some 14, gridY := some (63/10)
    comingSoon := false }

/-- startRoom scene entry of the registry (sceneData.js). -/
def startRoomScene : SceneDef :=
  { id := "startRoom", width := 400, height := 300
    exits := [startRoomNorthExit, startRoomEastExit] }

/-- circuitSanctum scene entry of the registry (sceneData.js). -/
def circuitSanctumScene : SceneDef :=
  { id := "circuitSanctum", width := 800, height := 600
    exits := [circuitSouthExit] }

/-- neonPhylactery scene entry of the registry (sceneData.js). -/
def neonPhylacteryScene : SceneDef :=
  { id := "neonPhylactery", width := 800, height := 600
    exits := [neonWestExit] }

/-- The full scene registry exported by sceneData.js. -/
def sceneRegistry : List SceneDef :=
  [startRoomScene, circuitSanctumScene, neonPhylacteryScene]

/-- Doorways built for one scene by DoorwayManager.initDoorways. -/
def initDoorwaysFor (s : SceneDef) : List Doorway :=
  s.exits.map (mkDoorway s.id s.width s.height)

/-- Record of one SceneManager.loadScene invocation emitted by
DoorwayManager.update, together with the doorway that fired and the value of
transitionCooldown at the moment of the call. -/
structure DMCall where
  door : Doorway
  target : Option String
  cooldownAtCall : ℚ
deriving DecidableEq, Repr

/-- The forEach body of DoorwayManager.update (doorways.js lines 384-410),
run left to right over the active doorways: compute the proximity sample,
update the doorway, and when transitionCooldown <= 0 and the player is near a
non-wall doorway, emit loadScene(targetScene) and set the cooldown to 0.5 s.
Returns the updated doorways, the final cooldown, and the emitted calls. -/
def dmRun (now playerX playerY : ℚ) : ℚ → List Doorway → List Doorway × ℚ × List DMCall
  | c, [] => ([], c, [])
  | c, d :: rest =>
    let near := d.isPlayerColliding playerX playerY
    let d1 := Doorway.update now near (fireDueClose now d)
    if c ≤ 0 ∧ near = true ∧ d.isWallDoorway = false then
      let r := dmRun now playerX playerY (1/2) rest
      (d1 :: r.1, r.2.1, ⟨d, d.targetScene, c⟩ :: r.2.2)
    else
      let r := dmRun now playerX playerY c rest
      (d1 :: r.1, r.2.1, r.2.2)

/-- DoorwayManager.update (doorways.js lines 365-411): decrement the cooldown
by deltaTime when it is positive, then process the active doorways. -/
def dmUpdate (cooldown0 deltaTime now playerX playerY : ℚ) (doors : List Doorway) :
    List Doorway × ℚ × List DMCall :=
  dmRun now playerX playerY (if cooldown0 > 0 then cooldown0 - deltaTime else cooldown0) doors

/-- Keys held down during one frame, as sampled by input.isKeyPressed
(level detection of the current keyboard state; PortalEntity in the same
repository keeps its own wasEnterPressed flag precisely because
input.isKeyPressed reports the held state, not a press edge). -/
structure InputSnapshot where
  shiftDown : Bool
  eDown : Bool
  dDown : Bool
  sDown : Bool
  fDown : Bool
deriving DecidableEq, Repr, Fintype

/-- The consumedKeys record of sceneIntegration.js lines 34-39. -/
structure ConsumedKeys where
  shiftE : Bool
  shiftD : Bool
  shiftS : Bool
  shiftF : Bool
deriving DecidableEq, Repr, Fintype

/-- All four consumed flags false, the state produced by the reset loop. -/
def noConsumed : ConsumedKeys := ⟨false, false, false, false⟩

/-- handleSceneTransitions (sceneIntegration.js lines 180-216): the four
Shift chords checked in order, each emitting SceneManager.transitionTo for
its direction when held and not yet consumed, and setting its consumed
flag. -/
def handleSceneTransitions (inp : InputSnapshot) (ck : ConsumedKeys) :
    ConsumedKeys × List String :=
  let r1 :=
    if inp.eDown && inp.shiftDown && !ck.shiftE then
      ({ ck with shiftE := true }, ["north"])
    else (ck, ([] : List String))
  let r2 :=
    if inp.dDown && inp.shiftDown && !r1.1.shiftD then
      ({ r1.1 with shiftD := true }, r1.2 ++ ["south"])
    else r1
  let r3 :=
    if inp.sDown && inp.shiftDown && !r2.1.shiftS then
      ({ r2.1 with shiftS := true }, r2.2 ++ ["west"])
    else r2
  if inp.fDown && inp.shiftDown && !r3.1.shiftF then
    ({ r3.1 with shiftF := true }, r3.2 ++ ["east"])
  else r3

/-- The opening of updateScene (sceneIntegration.js lines 68-75): it calls
handleSceneTransitions and then immediately resets every consumed flag to
false for the next frame.  Returns the consumed flags left for the next
frame and the transitionTo calls emitted this frame. -/
def updateSceneFrame (inp : InputSnapshot) (ck : ConsumedKeys) :
    ConsumedKeys × List String :=
  let r := handleSceneTransitions inp ck
  (noConsumed, r.2)

/-- The custom-threshold proximity test of updateScene (sceneIntegration.js
lines 121-124): dx and dy are absolute grid differences and the portal
matches when Math.max(dx, dy) <= threshold. -/
def chebyshevNear (portalGridX portalGridY playerGridX playerGridY threshold : ℚ) : Bool :=
  let dx := |portalGridX - playerGridX|
  let dy := |portalGridY - playerGridY|
  decide (max dx dy ≤ threshold)

/-- A portal record as seen by the proximity scan. -/
structure Portal where
  id : String
  sceneId : String
  gridX : ℚ
  gridY : ℚ
deriving DecidableEq, Repr

/-- Modelled from the spec: PortalSystem.getNearbyPortals (portalSystem.js is
not under src/; the spec states it returns the portal identifiers within
Chebyshev distance at most threshold of the player, scoped to the given
scene). -/
def getNearbyPortals (portals : List Portal) (playerGridX playerGridY : ℚ)
    (sceneId : String) (threshold : ℚ) : List String :=
  (portals.filter (fun p =>
      decide (p.sceneId = sceneId) &&
        chebyshevNear p.gridX p.gridY playerGridX playerGridY threshold)).map (fun p => p.id)

/-- JavaScript or-default on an optional number: the .. || dflt idiom, where
both an absent value and 0 are falsy and replaced by the default. -/
def jsOrQ (v : Option ℚ) (dflt : ℚ) : ℚ :=
  match v with
  | some x => if x = 0 then dflt else x
  | none => dflt

/-- JavaScript or-default on an optional string: the .. || dflt idiom, where
both an absent value and the empty string are falsy. -/
def jsOrStr (v : Option String) (dflt : String) : String :=
  match v with
  | some x => if x = "" then dflt else x
  | none => dflt

/-- Constructor options of VibePortalEntity that the verified logic reads. -/
structure VibePortalOptions where
  portalType : Option String
  targetUrl : Option String
  interactionDistance : Option ℚ
  entryDetectionRange : Option ℚ
deriving DecidableEq, Repr

/-- The fields of a VibePortalEntity that the verified logic reads. -/
structure VibePortal where
  portalType : String
  targetUrl : String
  interactionDistance : ℚ
  entryDetectionRange : ℚ
deriving DecidableEq, Repr

/-- The VibePortalEntity constructor (vibePortalEntity.js lines 18-63)
restricted to the verified fields: every one is options.field || default. -/
def mkVibePortal (opts : VibePortalOptions) : VibePortal :=
  { portalType := jsOrStr opts.portalType "exit"
    targetUrl := jsOrStr opts.targetUrl "https://portal.pieter.com"
    interactionDistance := jsOrQ opts.interactionDistance 3
    entryDetectionRange := jsOrQ opts.entryDetectionRange (3/2) }

/-- Character-list split on a separator character. -/
def splitOnChar (c : Char) : List Char → List (List Char)
  | [] => [[]]
  | x :: xs =>
    let r := splitOnChar c xs
    if x = c then [] :: r
    else
      match r with
      | [] => [[x]]
      | y :: ys => (x :: y) :: ys

/-- Split a key=value chunk at the first equals sign, as URLSearchParams
does: a chunk with no equals sign becomes a key with empty value, and any
further equals signs stay in the value. -/
def splitKeyValue : List Char → List Char × Option (List Char)
  | [] => ([], none)
  | x :: xs =>
    if x = '=' then ([], some xs)
    else
      let r := splitKeyValue xs
      (x :: r.1, r.2)

/-- One chunk of a query string as a key-value pair. -/
def parsePair (chunk : List Char) : String × String :=
  match splitKeyValue chunk with
  | (k, none) => (String.mk k, "")
  | (k, some v) => (String.mk k, String.mk v)

/-- The pair list of new URLSearchParams(s): a single leading question mark
is dropped, the rest is split on ampersands, empty chunks are skipped, and
each chunk is split at its first equals sign.  (Percent decoding is not
modelled; no claim involves escaped characters.) -/
def parseQuery (s : String) : List (String × String) :=
  let chars := match s.toList with
    | '?' :: rest => rest
    | l => l
  ((splitOnChar '&' chars).filter (fun chunk => chunk ≠ [])).map parsePair

/-- URLSearchParams.get: the value of the first pair with the given key. -/
def getParam (ps : List (String × String)) (key : String) : Option String :=
  match ps.find? (fun kv => kv.1 = key) with
  | some kv => some kv.2
  | none => none

/-- URLSearchParams.toString on a pair list (no percent encoding; no claim
involves characters that URLSearchParams would escape). -/
def toQueryString : List (String × String) → String
  | [] => ""
  | [kv] => kv.1 ++ "=" ++ kv.2
  | kv :: rest => kv.1 ++ "=" ++ kv.2 ++ "&" ++ toQueryString rest

/-- Boolean prefix test on strings, the model of String.prototype.startsWith. -/
def strStartsWith (s pre : String) : Bool :=
  List.isPrefixOf pre.toList s.toList

/-- What the deferred navigation block of enterPortal does to the page:
either assign window.location.href or show the portal message box. -/
inductive PortalNav
  | navigate (url : String)
  | message (text : String)
deriving DecidableEq, Repr

/-- The query parameters built at the top of VibePortalEntity.enterPortal
(vibePortalEntity.js lines 181-196): portal=true always, ref=hostname (with
the alchemistslair.local fallback for an empty hostname) for exit portals
only, and username when the global identity is set. -/
def enterPortalParams (ptype : String) (hostname : String) (username : Option String) :
    List (String × String) :=
  [("portal", "true")]
    ++ (if ptype = "exit" then [("ref", if hostname = "" then "alchemistslair.local" else hostname)]
        else [])
    ++ (match username with
        | some u => if u = "" then [] else [("username", u)]
        | none => [])

/-- The deferred navigation block of VibePortalEntity.enterPortal
(vibePortalEntity.js lines 198-252): an exit portal navigates to its
targetUrl with the built parameters appended; a start portal ignores its
targetUrl and resolves the ref parameter of the current page query string,
prepending the https scheme when absent and forwarding every other
parameter, or shows the failure message when ref is absent or empty; any
other portal type does nothing. -/
def enterPortalNav (ptype targetUrl hostname : String) (username : Option String)
    (locationSearch : String) : Option PortalNav :=
  let paramString := toQueryString (enterPortalParams ptype hostname username)
  let nextPage := targetUrl ++ (if paramString = "" then "" else "?" ++ paramString)
  if ptype = "exit" then some (PortalNav.navigate nextPage)
  else if ptype = "start" then
    let ps := parseQuery locationSearch
    match getParam ps "ref" with
    | some refUrl =>
      if refUrl = "" then some (PortalNav.message "No destination found for this portal")
      else
        let url :=
          if strStartsWith refUrl "http://" || strStartsWith refUrl "https://" then refUrl
          else "https://" ++ refUrl
        let forwarded := toQueryString (ps.filter (fun kv => decide ¬ (kv.1 = "ref")))
        some (PortalNav.navigate (url ++ (if forwarded = "" then "" else "?" ++ forwarded)))
    | none => some (PortalNav.message "No destination found for this portal")
  else none

/-- The doorway that initDoorways builds for the startRoom east exit. -/
def startRoomEastDoor : Doorway := mkDoorway "startRoom" 400 300 startRoomEastExit

/-- The doorway that initDoorways builds for the neonPhylactery west exit. -/
def neonWestDoor : Doorway := mkDoorway "neonPhylactery" 800 600 neonWestExit

/-- Input snapshot with the Shift+E chord held. -/
def shiftEHeld : InputSnapshot :=
  { shiftDown := true, eDown := true, dDown := false, sDown := false, fDown := false }

/-- Input snapshot with Shift and all four direction letters held. -/
def allChordsHeld : InputSnapshot :=
  { shiftDown := true, eDown := true, dDown := true, sDown := true, fDown := true }

/-- Evaluated form of the startRoom east doorway. -/
theorem startRoomEastDoor_eq :
    startRoomEastDoor =
      { direction := "east", targetScene := some "comingSoon", x := 400, y := 150,
        isOpen := false, closeDeadline := none, isWallDoorway := true,
        wallSide := some WallSide.west, gridX := 0, gridY := 53/10 } := rfl

/-- Every loadScene call emitted by the doorway scan was recorded with a
nonpositive cooldown (the guard requires transitionCooldown <= 0) and came
from a non-wall doorway (the guard requires !isWallDoorway). -/
theorem dmRun_calls_prop (now px py : ℚ) :
    ∀ (doors : List Doorway) (c : ℚ), ∀ call ∈ (dmRun now px py c doors).2.2,
      call.cooldownAtCall ≤ 0 ∧ call.door.isWallDoorway = false := by
  intro doors
  induction doors with
  | nil =>
    intro c call h
    simp [dmRun] at h
  | cons d rest ih =>
    intro c call h
    by_cases hg : c ≤ 0 ∧ d.isPlayerColliding px py = true ∧ d.isWallDoorway = false
    · simp only [dmRun, if_pos hg] at h
      rcases List.mem_cons.mp h with h1 | h2
      · subst h1
        exact ⟨hg.1, hg.2.2⟩
      · exact ih _ call h2
    · simp only [dmRun, if_neg hg] at h
      exact ih _ call h

/-- When the doorway scan emits no loadScene call, the cooldown is returned
unchanged. -/
theorem dmRun_no_calls_cooldown (now px py : ℚ) :
    ∀ (doors : List Doorway) (c : ℚ),
      (dmRun now px py c doors).2.2 = [] → (dmRun now px py c doors).2.1 = c := by
  intro doors
  induction doors with
  | nil =>
    intro c _
    simp [dmRun]
  | cons d rest ih =>
    intro c hc
    by_cases hg : c ≤ 0 ∧ d.isPlayerColliding px py = true ∧ d.isWallDoorway = false
    · simp only [dmRun, if_pos hg] at hc
      exact absurd hc (List.cons_ne_nil _ _)
    · simp only [dmRun, if_neg hg] at hc ⊢
      exact ih _ hc

/-- When the doorway scan emits at least one loadScene call, the cooldown it
returns is exactly 0.5 seconds. -/
theorem dmRun_fired_cooldown_half (now px py : ℚ) :
    ∀ (doors : List Doorway) (c : ℚ),
      (dmRun now px py c doors).2.2 ≠ [] → (dmRun now px py c doors).2.1 = 1/2 := by
  intro doors
  induction doors with
  | nil =>
    intro c hc
    simp [dmRun] at hc
  | cons d rest ih =>
    intro c hc
    by_cases hg : c ≤ 0 ∧ d.isPlayerColliding px py = true ∧ d.isWallDoorway = false
    · simp only [dmRun, if_pos hg] at hc ⊢
      by_cases hrest : (dmRun now px py (1/2) rest).2.2 = []
      · exact dmRun_no_calls_cooldown now px py rest (1/2) hrest
      · exact ih _ hrest
    · simp only [dmRun, if_neg hg] at hc ⊢
      exact ih _ hc

/-- With a positive cooldown entering the scan, no loadScene call fires. -/
theorem dmRun_pos_no_calls (now px py : ℚ) :
    ∀ (doors : List Doorway) (c : ℚ), 0 < c → (dmRun now px py c doors).2.2 = [] := by
  intro doors
  induction doors with
  | nil =>
    intro c _
    simp [dmRun]
  | cons d rest ih =>
    intro c hc
    have hg : ¬ (c ≤ 0 ∧ d.isPlayerColliding px py = true ∧ d.isWallDoorway = false) :=
      fun hg => absurd hg.1 (not_le.mpr hc)
    simp only [dmRun, if_neg hg]
    exact ih _ hc

/-- Every doorway built from the scene registry is a wall doorway (all four
registry exits have cardinal directions). -/
theorem registry_doorways_wall :
    ∀ s ∈ sceneRegistry, ∀ e ∈ s.exits,
      (mkDoorway s.id s.width s.height e).isWallDoorway = true := by
  decide

/-- A query string serialized from a nonempty parameter list is nonempty
(it always contains an equals sign). -/
theorem toQueryString_cons_ne_empty (kv : String × String) (rest : List (String × String)) :
    toQueryString (kv :: rest) ≠ "" := by
  intro he
  have hlen := congrArg String.length he
  cases rest with
  | nil =>
    simp [toQueryString, String.length_append] at hlen
    exact absurd hlen.1.2 (by decide)
  | cons b l =>
    simp [toQueryString, String.length_append] at hlen
    exact absurd hlen.1.1.1.2 (by decide)

/-- Evaluated form of the neonPhylactery west doorway. -/
theorem neonWestDoor_eq :
    neonWestDoor =
      { direction := "west", targetScene := some "startRoom", x := 0, y := 300,
        isOpen := false, closeDeadline := none, isWallDoorway := true,
        wallSide := some WallSide.west, gridX := 14, gridY := 63/10 } := rfl

/-- The squared-distance comparison used by isPlayerColliding is the strict
Euclidean three-unit test of the source (Math.sqrt is strictly monotone). -/
theorem sq_dist_iff (gx gy px py : ℚ) :
    (|gx - px| * |gx - px| + |gy - py| * |gy - py| < 9) ↔
      Real.sqrt (((gx : ℝ) - (px : ℝ)) ^ 2 + ((gy : ℝ) - (py : ℝ)) ^ 2) < 3 := by
  rw [Real.sqrt_lt' (by norm_num : (0:ℝ) < 3)]
  have hEq : ((gx : ℝ) - (px : ℝ)) ^ 2 + ((gy : ℝ) - (py : ℝ)) ^ 2
      = ((|gx - px| * |gx - px| + |gy - py| * |gy - py| : ℚ) : ℝ) := by
    push_cast
    rw [abs_mul_abs_self, abs_mul_abs_self]
    ring
  rw [hEq, show ((3:ℝ) ^ 2) = ((9 : ℚ) : ℝ) by norm_num, Rat.cast_lt]

/-- C3 counterexample: the neonPhylactery west doorway and a player standing
exactly on it (Euclidean distance 0 < 3.0) yield a false proximity flag,
because the wall-side constraint playerX <= 5 for west doors also applies;
so the flag is not determined by the distance alone. -/
theorem wall_proximity_counterexample :
    neonWestDoor.isPlayerColliding 14 (63/10) = false
    ∧ Real.sqrt (((neonWestDoor.gridX : ℝ) - 14) ^ 2
        + ((neonWestDoor.gridY : ℝ) - 63/10) ^ 2) < 3 := by
  constructor
  · norm_num [Doorway.isPlayerColliding, neonWestDoor_eq]
  · have hx : neonWestDoor.gridX = 14 := rfl
    have hy : neonWestDoor.gridY = 63/10 := rfl
    have h0 : ((neonWestDoor.gridX : ℝ) - 14) ^ 2 + ((neonWestDoor.gridY : ℝ) - 63/10) ^ 2 = 0 := by
      rw [hx, hy]
      push_cast
      norm_num
    rw [h0, Real.sqrt_zero]
    norm_num

/-- C3 amended: the proximity flag equals the strict Euclidean test d < 3.0
together with the wall-side constraints of the source: a north-plane wall
doorway additionally requires playerY <= 5 and a west-plane wall doorway
additionally requires playerX <= 5; for non-wall doorways the distance alone
decides. -/
theorem isPlayerColliding_spec (d : Doorway) (px py : ℚ) :
    d.isPlayerColliding px py = true ↔
      (Real.sqrt (((d.gridX : ℝ) - (px : ℝ)) ^ 2 + ((d.gridY : ℝ) - (py : ℝ)) ^ 2) < 3
       ∧ (d.isWallDoorway = true → d.wallSide = some WallSide.north → py ≤ 5)
       ∧ (d.isWallDoorway = true → d.wallSide = some WallSide.west → px ≤ 5)) := by
  have key := sq_dist_iff d.gridX d.gridY px py
  simp only [Doorway.isPlayerColliding]
  cases hwb : d.isWallDoorway with
  | false =>
    simp only [hwb, Bool.false_eq_true, if_false, decide_eq_true_eq]
    constructor
    · intro h
      exact ⟨key.mp h, fun hf => absurd hf (by simp), fun hf => absurd hf (by simp)⟩
    · rintro ⟨hs, _, _⟩
      exact key.mpr hs
  | true =>
    simp only [hwb, if_true, if_pos rfl]
    by_cases h1 : d.wallSide = some WallSide.north ∧ py > 5
    · rw [if_pos h1]
      constructor
      · intro hfalse
        exact absurd hfalse Bool.false_ne_true
      · rintro ⟨_, hN, _⟩
        exact absurd (hN trivial h1.1) (not_le.mpr h1.2)
    · rw [if_neg h1]
      by_cases h2 : d.wallSide = some WallSide.west ∧ px > 5
      · rw [if_pos h2]
        constructor
        · intro hfalse
          exact absurd hfalse Bool.false_ne_true
        · rintro ⟨_, _, hW⟩
          exact absurd (hW trivial h2.1) (not_le.mpr h2.2)
      · rw [if_neg h2]
        rw [decide_eq_true_eq]
        constructor
        · intro h
          exact ⟨key.mp h, fun _ hn => not_lt.mp (fun hpy => h1 ⟨hn, hpy⟩),
            fun _ hw => not_lt.mp (fun hpx => h2 ⟨hw, hpx⟩)⟩
        · rintro ⟨hs, _, _⟩
          exact key.mpr hs

/-- C1: the claim says a proximity sample before the 800 ms close delay
elapses cancels the pending close and the door remains open.  On the code it
does not: opening is instant (first conjunct), but after the samples
near(t=0), far(t=0.1), near(t=0.5) the close deadline 0.9 is still pending
(the cancellation branch of Doorway.update requires the door to be closed),
the near sample at 0.5 came before the deadline, and when the timer fires at
t=0.9 the door closes despite the restored proximity. -/
theorem pending_close_not_cancelled :
    (stepFrame 0 true startRoomEastDoor).isOpen = true
    ∧ (runFrames startRoomEastDoor [(0, true), (1/10, false), (1/2, true)]).closeDeadline
        = some (9/10)
    ∧ (1/2 : ℚ) < 9/10
    ∧ (fireDueClose (9/10)
        (runFrames startRoomEastDoor [(0, true), (1/10, false), (1/2, true)])).isOpen
        = false := by
  norm_num [runFrames, stepFrame, Doorway.update, fireDueClose, startRoomEastDoor_eq]

/-- C5: portal proximity detection is Chebyshev with a non-strict threshold:
the per-frame test of updateScene equals the square-zone condition, the two
boundary examples of the claim hold, and the (spec-modelled) getNearbyPortals
returns exactly the identifiers of in-scene portals within the Chebyshev
threshold. -/
theorem portal_proximity_chebyshev (gx gy px py th : ℚ) (portals : List Portal)
    (sceneId pid : String) :
    (chebyshevNear gx gy px py th = true ↔ (|gx - px| ≤ th ∧ |gy - py| ≤ th))
    ∧ chebyshevNear 0 0 (1/2) (1/2) (1/2) = true
    ∧ chebyshevNear 0 0 (3/5) 0 (1/2) = false
    ∧ (pid ∈ getNearbyPortals portals px py sceneId th ↔
        ∃ p ∈ portals, p.id = pid ∧ p.sceneId = sceneId ∧
          max |p.gridX - px| |p.gridY - py| ≤ th) := by
  refine ⟨?_, by norm_num [chebyshevNear, abs_of_nonneg], ?_, ?_⟩
  · simp [chebyshevNear, max_le_iff]
  · norm_num [chebyshevNear, abs_of_nonneg]
  · simp only [getNearbyPortals, List.mem_map, List.mem_filter, Bool.and_eq_true,
      decide_eq_true_eq, chebyshevNear]
    constructor
    · rintro ⟨p, ⟨hp, hs, hc⟩, hid⟩
      exact ⟨p, hp, hid.symm ▸ rfl, hs, hc⟩
    · rintro ⟨p, hp, hid, hs, hc⟩
      exact ⟨p, ⟨hp, hs, hc⟩, hid⟩

/-- C8 counterexample: holding the Shift+E chord across two consecutive
frames fires SceneManager.transitionTo twice for a single unbroken press,
because updateScene clears the consumed flags right after the check. -/
theorem chord_retriggers_while_held :
    (updateSceneFrame shiftEHeld noConsumed).2 = ["north"]
    ∧ (updateSceneFrame shiftEHeld (updateSceneFrame shiftEHeld noConsumed).1).2
        = ["north"] := by
  decide

/-- C8 amended: each of the four chords fires at most once within a single
frame and the consumed flags are always left cleared (so movement keys are
never blocked), but a held chord fires again on every subsequent frame: with
the flags cleared, a frame whose snapshot holds Shift and the respective
letter always emits that transition, for each of the four chords. -/
theorem chord_per_frame_behavior :
    ∀ (inp : InputSnapshot) (ck : ConsumedKeys),
      (updateSceneFrame inp ck).1 = noConsumed
      ∧ ((updateSceneFrame inp ck).2.count "north" ≤ 1
        ∧ (updateSceneFrame inp ck).2.count "south" ≤ 1
        ∧ (updateSceneFrame inp ck).2.count "west" ≤ 1
        ∧ (updateSceneFrame inp ck).2.count "east" ≤ 1)
      ∧ (inp.shiftDown = true → inp.eDown = true → ck.shiftE = false →
          "north" ∈ (updateSceneFrame inp ck).2)
      ∧ (inp.shiftDown = true → inp.dDown = true → ck.shiftD = false →
          "south" ∈ (updateSceneFrame inp ck).2)
      ∧ (inp.shiftDown = true → inp.sDown = true → ck.shiftS = false →
          "west" ∈ (updateSceneFrame inp ck).2)
      ∧ (inp.shiftDown = true → inp.fDown = true → ck.shiftF = false →
          "east" ∈ (updateSceneFrame inp ck).2) := by
  intro inp ck
  refine ⟨?_, ⟨?_, ?_, ?_, ?_⟩, ?_, ?_, ?_, ?_⟩ <;> revert inp ck <;> decide

/-- Witness for the amended C8 statement with all four chords held over the
cleared flags that every frame leaves behind: each direction fires. -/
theorem chord_per_frame_behavior_witness :
    (updateSceneFrame allChordsHeld noConsumed).1 = noConsumed
    ∧ "north" ∈ (updateSceneFrame allChordsHeld noConsumed).2
    ∧ "south" ∈ (updateSceneFrame allChordsHeld noConsumed).2
    ∧ "west" ∈ (updateSceneFrame allChordsHeld noConsumed).2
    ∧ "east" ∈ (updateSceneFrame allChordsHeld noConsumed).2 :=
  ⟨(chord_per_frame_behavior allChordsHeld noConsumed).1,
    (chord_per_frame_behavior allChordsHeld noConsumed).2.2.1 rfl rfl rfl,
    (chord_per_frame_behavior allChordsHeld noConsumed).2.2.2.1 rfl rfl rfl,
    (chord_per_frame_behavior allChordsHeld noConsumed).2.2.2.2.1 rfl rfl rfl,
    (chord_per_frame_behavior allChordsHeld noConsumed).2.2.2.2.2 rfl rfl rfl⟩

/-- C9 counterexample: the VibePortalEntity constructor does not enforce the
claimed invariant; passing entryDetectionRange = 10 with the default
interactionDistance = 3 yields entryDetectionRange > interactionDistance. -/
theorem entry_range_invariant_counterexample :
    (mkVibePortal
        { portalType := none, targetUrl := none,
          interactionDistance := none, entryDetectionRange := some 10 }).entryDetectionRange
      > (mkVibePortal
        { portalType := none, targetUrl := none,
          interactionDistance := none, entryDetectionRange := some 10 }).interactionDistance := by
  norm_num [mkVibePortal, jsOrQ]

/-- C9 amended: the invariant entryDetectionRange <= interactionDistance
holds after construction with the default options (1.5 <= 3), and in general
exactly when the effective option values already satisfy it; the constructor
itself never adjusts either field. -/
theorem entry_range_invariant_amended :
    ((mkVibePortal
        { portalType := none, targetUrl := none,
          interactionDistance := none, entryDetectionRange := none }).entryDetectionRange
      ≤ (mkVibePortal
        { portalType := none, targetUrl := none,
          interactionDistance := none, entryDetectionRange := none }).interactionDistance)
    ∧ ∀ opts : VibePortalOptions,
        jsOrQ opts.entryDetectionRange (3/2) ≤ jsOrQ opts.interactionDistance 3 →
        (mkVibePortal opts).entryDetectionRange ≤ (mkVibePortal opts).interactionDistance :=
  ⟨by norm_num [mkVibePortal, jsOrQ], fun opts h => h⟩

/-- Witness for the amended C9 statement at the default options. -/
theorem entry_range_invariant_amended_witness :
    jsOrQ (none : Option ℚ) (3/2) ≤ jsOrQ (none : Option ℚ) 3
    ∧ (mkVibePortal
        { portalType := none, targetUrl := none,
          interactionDistance := none, entryDetectionRange := none }).entryDetectionRange
      ≤ (mkVibePortal
        { portalType := none, targetUrl := none,
          interactionDistance := none, entryDetectionRange := none }).interactionDistance :=
  ⟨by norm_num [jsOrQ],
    entry_range_invariant_amended.2
      { portalType := none, targetUrl := none,
        interactionDistance := none, entryDetectionRange := none } (by norm_num [jsOrQ])⟩

/-- C10: initDoorways unconditionally forces the startRoom east doorway to
wallSide west at grid (0, 5.3) and the neonPhylactery west doorway to
wallSide west at grid (14.0, 6.3), whatever gridX, gridY or position the
exit configuration supplies. -/
theorem hardcoded_door_positions (w h : ℚ) (e : ExitConfig) :
    (e.direction = "east" →
      (mkDoorway "startRoom" w h e).wallSide = some WallSide.west
      ∧ (mkDoorway "startRoom" w h e).gridX = 0
      ∧ (mkDoorway "startRoom" w h e).gridY = 53/10)
    ∧ (e.direction = "west" →
      (mkDoorway "neonPhylactery" w h e).wallSide = some WallSide.west
      ∧ (mkDoorway "neonPhylactery" w h e).gridX = 14
      ∧ (mkDoorway "neonPhylactery" w h e).gridY = 63/10) := by
  constructor
  · intro hdir
    simp [mkDoorway, hdir]
  · intro hdir
    simp [mkDoorway, hdir]

/-- Witness for C10 at the two registry exits it is about. -/
theorem hardcoded_door_positions_witness :
    (startRoomEastExit.direction = "east"
      ∧ startRoomEastDoor.wallSide = some WallSide.west
      ∧ startRoomEastDoor.gridX = 0
      ∧ startRoomEastDoor.gridY = 53/10)
    ∧ (neonWestExit.direction = "west"
      ∧ neonWestDoor.wallSide = some WallSide.west
      ∧ neonWestDoor.gridX = 14
      ∧ neonWestDoor.gridY = 63/10) :=
  ⟨⟨rfl, (hardcoded_door_positions 400 300 startRoomEastExit).1 rfl⟩,
    ⟨rfl, (hardcoded_door_positions 800 600 neonWestExit).2 rfl⟩⟩

/-- C2: over one DoorwayManager.update call, every emitted loadScene happens
with the cooldown at or below zero and from a non-wall doorway; when a
transition fires the cooldown leaves the update equal to exactly 0.5 s; and
a positive cooldown is decremented by exactly deltaTime, with no transition
at all when the decremented value is still positive. -/
theorem dm_transition_cooldown (c0 dt now px py : ℚ) (doors : List Doorway) :
    (∀ call ∈ (dmUpdate c0 dt now px py doors).2.2,
        call.cooldownAtCall ≤ 0 ∧ call.door.isWallDoorway = false)
    ∧ ((dmUpdate c0 dt now px py doors).2.2 ≠ [] →
        (dmUpdate c0 dt now px py doors).2.1 = 1/2)
    ∧ (c0 > 0 → 0 < c0 - dt →
        (dmUpdate c0 dt now px py doors).2.2 = []
          ∧ (dmUpdate c0 dt now px py doors).2.1 = c0 - dt)
    ∧ (c0 > 0 → (dmUpdate c0 dt now px py doors).2.2 = [] →
        (dmUpdate c0 dt now px py doors).2.1 = c0 - dt) := by
  refine ⟨fun call h => dmRun_calls_prop now px py doors _ call h,
    fun h => dmRun_fired_cooldown_half now px py doors _ h, ?_, ?_⟩
  · intro hc0 hdec
    have hif : (if c0 > 0 then c0 - dt else c0) = c0 - dt := if_pos hc0
    unfold dmUpdate
    rw [hif]
    exact ⟨dmRun_pos_no_calls now px py doors _ hdec,
      dmRun_no_calls_cooldown now px py doors _ (dmRun_pos_no_calls now px py doors _ hdec)⟩
  · intro hc0 hempty
    have hif : (if c0 > 0 then c0 - dt else c0) = c0 - dt := if_pos hc0
    unfold dmUpdate at hempty ⊢
    rw [hif] at hempty ⊢
    exact dmRun_no_calls_cooldown now px py doors _ hempty

/-- Witness for C2: with cooldown 1 and deltaTime 1/4 over the startRoom
doorways, no transition fires and the cooldown comes out as 1 - 1/4. -/
theorem dm_transition_cooldown_witness :
    (0 : ℚ) < 1 ∧ (0 : ℚ) < 1 - 1/4
    ∧ (dmUpdate 1 (1/4) 0 0 0 (initDoorwaysFor startRoomScene)).2.2 = []
    ∧ (dmUpdate 1 (1/4) 0 0 0 (initDoorwaysFor startRoomScene)).2.1 = 1 - 1/4 :=
  ⟨by norm_num, by norm_num,
    (dm_transition_cooldown 1 (1/4) 0 0 0 (initDoorwaysFor startRoomScene)).2.2.1
      (by norm_num) (by norm_num)⟩

/-- C4: a doorway built from a registry exit that is comingSoon-flagged or
has no target is never the subject of a loadScene call emitted by
DoorwayManager.update, whatever the cooldown, frame time and player position
(every such registry exit is cardinal, hence a wall doorway, and the
transition branch requires a non-wall doorway). -/
theorem coming_soon_never_loaded :
    ∀ s ∈ sceneRegistry, ∀ e ∈ s.exits,
      (e.comingSoon = true ∨ e.toScene = none) →
      ∀ (c0 dt now px py : ℚ),
        mkDoorway s.id s.width s.height e ∉
          ((dmUpdate c0 dt now px py (initDoorwaysFor s)).2.2.map (fun call => call.door)) := by
  intro s hs e he _ c0 dt now px py hmem
  rcases List.mem_map.mp hmem with ⟨call, hcall, hdoor⟩
  have h1 : call.cooldownAtCall ≤ 0 ∧ call.door.isWallDoorway = false :=
    dmRun_calls_prop now px py (initDoorwaysFor s) _ call hcall
  have h2 : (mkDoorway s.id s.width s.height e).isWallDoorway = true :=
    registry_doorways_wall s hs e he
  rw [hdoor] at h1
  rw [h1.2] at h2
  exact Bool.noConfusion h2

/-- Witness for C4: the comingSoon startRoom east exit, with the player
standing on the door and a spent cooldown, still never receives loadScene. -/
theorem coming_soon_never_loaded_witness :
    startRoomScene ∈ sceneRegistry
    ∧ startRoomEastExit ∈ startRoomScene.exits
    ∧ startRoomEastExit.comingSoon = true
    ∧ mkDoorway startRoomScene.id startRoomScene.width startRoomScene.height startRoomEastExit ∉
        ((dmUpdate 0 (1/60) 0 0 (53/10)
            (initDoorwaysFor startRoomScene)).2.2.map (fun call => call.door)) :=
  ⟨List.mem_cons_self _ _,
    List.mem_cons_of_mem _ (List.mem_cons_self _ _),
    rfl,
    coming_soon_never_loaded startRoomScene (List.mem_cons_self _ _) startRoomEastExit
      (List.mem_cons_of_mem _ (List.mem_cons_self _ _)) (Or.inl rfl) 0 (1/60) 0 0 (53/10)⟩

/-- C6: an exit portal entry always carries portal=true and ref=hostname in
its outbound query parameters and navigates to its targetUrl with that query
appended; a start portal arriving with the page query ?ref=foo.com&x=1
navigates to https://foo.com?x=1 (ref stripped, https scheme prepended,
other parameters preserved). -/
theorem portal_url_protocol (targetUrl hostname : String) (username : Option String)
    (search : String) :
    (hostname ≠ "" →
      ("portal", "true") ∈ enterPortalParams "exit" hostname username
      ∧ ("ref", hostname) ∈ enterPortalParams "exit" hostname username
      ∧ enterPortalNav "exit" targetUrl hostname username search
          = some (PortalNav.navigate
              (targetUrl ++ ("?" ++ toQueryString (enterPortalParams "exit" hostname username)))))
    ∧ enterPortalNav "start" targetUrl hostname username "?ref=foo.com&x=1"
        = some (PortalNav.navigate "https://foo.com?x=1") := by
  constructor
  · intro h
    refine ⟨by simp [enterPortalParams], by simp [enterPortalParams, h], ?_⟩
    have hne : toQueryString (enterPortalParams "exit" hostname username) ≠ "" := by
      have hcons : enterPortalParams "exit" hostname username
          = ("portal", "true") ::
              ((if ("exit" : String) = "exit" then
                  [("ref", if hostname = "" then "alchemistslair.local" else hostname)] else [])
                ++ (match username with
                    | some u => if u = "" then [] else [("username", u)]
                    | none => [])) := rfl
      rw [hcons]
      exact toQueryString_cons_ne_empty _ _
    simp only [enterPortalNav, if_pos rfl, if_neg hne, if_true]
  · rfl

/-- Witness for C6: a concrete exit entry produces the exact URL of the spec
example. -/
theorem portal_url_protocol_witness :
    ("mygame.io" : String) ≠ ""
    ∧ enterPortalNav "exit" "https://portal.pieter.com" "mygame.io" none ""
        = some (PortalNav.navigate "https://portal.pieter.com?portal=true&ref=mygame.io") := by
  refine ⟨by decide, ?_⟩
  have h := (portal_url_protocol "https://portal.pieter.com" "mygame.io" none "").1 (by decide)
  rw [h.2.2]
  rfl

/-- C7: a start portal entry on a page whose query string has no ref
parameter (or an empty one, which JavaScript treats as falsy) shows the
user-visible failure message and performs no navigation. -/
theorem start_portal_missing_ref (targetUrl hostname : String) (username : Option String)
    (search : String) :
    (getParam (parseQuery search) "ref" = none ∨ getParam (parseQuery search) "ref" = some "") →
    (enterPortalNav "start" targetUrl hostname username search
        = some (PortalNav.message "No destination found for this portal")
      ∧ ∀ u, enterPortalNav "start" targetUrl hostname username search
          ≠ some (PortalNav.navigate u)) := by
  intro h
  have hmsg : enterPortalNav "start" targetUrl hostname username search
      = some (PortalNav.message "No destination found for this portal") := by
    rcases h with h | h <;> simp [enterPortalNav, h]
  refine ⟨hmsg, fun u hnav => ?_⟩
  rw [hmsg] at hnav
  simp at hnav

/-- Witness for C7 on the page query ?x=1, which has no ref parameter. -/
theorem start_portal_missing_ref_witness :
    getParam (parseQuery "?x=1") "ref" = none
    ∧ enterPortalNav "start" "https://portal.pieter.com" "alchemistslair.local" none "?x=1"
        = some (PortalNav.message "No destination found for this portal") :=
  ⟨by decide,
    (start_portal_missing_ref "https://portal.pieter.com" "alchemistslair.local" none "?x=1"
        (Or.inl (by decide))).1⟩

end AIalchemistsLAIR
